import Mathlib

/-!
# Verification of the DCE account/lease lifecycle store (`pkg/db/db.go`)

A shallow embedding of the DynamoDB-backed `DB` service: point lookups,
secondary-index queries, the lease upsert with its partial-update
expression builder, and the condition-guarded status transitions.

The backing store is modelled as in-memory tables of attribute maps.
A conditional `UpdateItem` fails with `ConditionalCheckFailedException`
exactly when the target item is absent or the guarded attribute does not
hold the expected value, mirroring DynamoDB's conditional-write semantics.
Clock reads (`time.Now().Unix()`) are passed in as an explicit `now`
parameter.
-/

deriving instance DecidableEq for Except

namespace Dce

/-- A DynamoDB attribute value, restricted to the shapes this store uses:
strings (`S`), numbers (`N`, always integers here since they come from
`strconv.FormatInt`), and string-valued maps (`M`, used for `Metadata`). -/
inductive AttrVal where
  | S (s : String)
  | N (n : Int)
  | M (entries : List (String × String))
deriving DecidableEq, Repr

/-- A stored item: a map from attribute names to attribute values. -/
def Item := List (String × AttrVal)
deriving DecidableEq, Repr

/-- First value bound to attribute `name` in the item, if any. -/
def getAttr (it : Item) (name : String) : Option AttrVal :=
  match it with
  | [] => none
  | (k, v) :: rest => if k = name then some v else getAttr rest name

/-- Set attribute `name` to `v`, replacing an existing binding in place or
appending a new one. -/
def setAttr (it : Item) (name : String) (v : AttrVal) : Item :=
  match it with
  | [] => [(name, v)]
  | (k, w) :: rest =>
      if k = name then (k, v) :: rest else (k, w) :: setAttr rest name v

/-- Apply a list of `SET name = value` assignments to an item. -/
def applySets (it : Item) (sets : List (String × AttrVal)) : Item :=
  sets.foldl (fun acc kv => setAttr acc kv.1 kv.2) it

/-- An item matches a key when every key attribute is present with the
given value. -/
def itemMatchesKey (it : Item) (key : List (String × AttrVal)) : Bool :=
  key.all (fun kv => getAttr it kv.1 = some kv.2)

/-- Replace the first item satisfying `p` by `f` of itself. -/
def updateFirst (p : Item → Bool) (f : Item → Item) : List Item → List Item
  | [] => []
  | it :: rest => if p it then f it :: rest else it :: updateFirst p f rest

/-- The only error the modelled DynamoDB client raises on a write: the
condition expression did not hold against the current stored value
(`ConditionalCheckFailedException`). -/
inductive DynErr where
  | conditionalCheckFailed
deriving DecidableEq, Repr

/-- The `GetItem`: point lookup of the item matching the primary key. -/
def dynGetItem (table : List Item) (key : List (String × AttrVal)) : Option Item :=
  table.find? (fun it => itemMatchesKey it key)

/-- The `Query` on a secondary index with an equality key condition: all items
whose `attr` equals `v`. Items lacking the attribute are not in the
(sparse) index and are never returned. -/
def dynQuery (table : List Item) (attr : String) (v : AttrVal) : List Item :=
  table.filter (fun it => getAttr it attr = some v)

/-- The `UpdateItem`: conditional partial update returning the post-write image
(`ReturnValues: ALL_NEW`) and the new table contents.

* absent item, no condition: the item is created from the key attributes
  plus the `SET` assignments (upsert);
* absent item, with condition: `ConditionalCheckFailedException` —
  a condition over a non-existent item fails;
* present item: the condition (if any) is checked against the stored
  attribute; on success the assignments are applied in place. -/
def dynUpdateItem (table : List Item) (key : List (String × AttrVal))
    (cond : Option (String × AttrVal)) (sets : List (String × AttrVal)) :
    Except DynErr (Item × List Item) :=
  match dynGetItem table key with
  | none =>
      match cond with
      | some _ => .error .conditionalCheckFailed
      | none =>
          let newItem := applySets key sets
          .ok (newItem, table ++ [newItem])
  | some it =>
      let checkOk := match cond with
        | none => true
        | some av => getAttr it av.1 = some av.2
      if checkOk then
        let it' := applySets it sets
        .ok (it', updateFirst (fun x => itemMatchesKey x key) (fun _ => it') table)
      else .error .conditionalCheckFailed

/-- A record of one backing-store round trip, used to state that an
operation performs exactly the calls the code issues and no others. -/
inductive StoreOp where
  | getItemOp (table : String) (key : List (String × AttrVal)) (consistentRead : Bool)
  | queryOp (table index attr : String) (v : AttrVal)
  | updateItemOp (table : String) (key : List (String × AttrVal))
      (hasCondition : Bool) (sets : List (String × AttrVal))
deriving DecidableEq, Repr

/-- Is this store operation a read (`GetItem` or `Query`)? -/
def StoreOp.isRead : StoreOp → Bool
  | .getItemOp .. => true
  | .queryOp .. => true
  | .updateItemOp .. => false

/-- Is this store operation a condition-guarded write? -/
def StoreOp.isConditionalWrite : StoreOp → Bool
  | .updateItemOp _ _ hasCondition _ => hasCondition
  | _ => false

/-! ## Records

Modelled from the spec: the `Account` and `Lease` struct definitions live
in files of this repository outside the excerpt (only `db.go` is present);
their field sets follow §3 of the spec, and the serialized attribute names
follow the names `db.go` itself uses against the table (`Id`,
`AccountStatus`, `LastModifiedOn`, `AccountId`, `PrincipalId`,
`LeaseStatus`, `LeaseStatusReason`, `LeaseStatusModifiedOn`). -/

/-- The `AccountStatus` is a string-typed enum in the source (`NotReady`,
`Ready`, `Leased`). -/
abbrev AccountStatus := String

/-- The `LeaseStatus` is a string-typed enum in the source (`Active`,
`Inactive`, `ResetLock`, ...). -/
abbrev LeaseStatus := String

/-- The `LeaseStatusReason` is a free-form audit string. -/
abbrev LeaseStatusReason := String

/-- Modelled from the spec: the `Account` record (§3), whose struct
definition is missing from the excerpt. Serialized attribute names are the
ones `db.go` uses: key `Id`, status attribute `AccountStatus`. -/
structure Account where
  ID : String
  Status : AccountStatus
  AdminRoleArn : String
  PrincipalRoleArn : String
  PrincipalPolicyHash : String
  Metadata : List (String × String)
  CreatedOn : Int
  LastModifiedOn : Int
deriving DecidableEq, Repr

/-- Modelled from the spec: the `Lease` record (§3), whose struct
definition is missing from the excerpt. Serialized attribute names are the
ones `db.go` uses: composite key `AccountId`/`PrincipalId`, indexed `Id`,
status fields `LeaseStatus`/`LeaseStatusReason`/`LeaseStatusModifiedOn`. -/
structure Lease where
  AccountID : String
  PrincipalID : String
  ID : String
  LeaseStatus : LeaseStatus
  LeaseStatusReason : LeaseStatusReason
  LeaseStatusModifiedOn : Int
  ExpiresOn : Int
  LastModifiedOn : Int
deriving DecidableEq, Repr

/-- The store's error values. In Go all of these are `error`; the source
distinguishes the dedicated `*StatusTransitionError` type from errors the
AWS client returns (`awserr.Error`, carrying a code), from plain
`fmt.Errorf`/`errors.New` values, from `dynamodbattribute` unmarshalling
failures, and from `errors.Wrap`-wrapped causes. -/
inductive DBError where
  | statusTransition (msg : String)
  | awsError (code msg : String)
  | goError (msg : String)
  | unmarshalError (msg : String)
  | wrapped (msg : String) (cause : DBError)
deriving DecidableEq, Repr

/-- Is this the dedicated `*StatusTransitionError` type? -/
def DBError.isStatusTransition : DBError → Bool
  | .statusTransition _ => true
  | _ => false

/-- Is this a generic backing-store (AWS client) error? -/
def DBError.isBackingStoreError : DBError → Bool
  | .awsError .. => true
  | _ => false

/-- Read a string attribute the way `dynamodbattribute.UnmarshalMap` does:
an absent attribute leaves the field at its zero value `""`; an attribute
of the wrong shape is an unmarshalling error. -/
def getS (it : Item) (name : String) : Except DBError String :=
  match getAttr it name with
  | none => .ok ""
  | some (.S s) => .ok s
  | some _ => .error (.unmarshalError ("cannot unmarshal attribute " ++ name))

/-- Read a number attribute; absent means the zero value `0`. -/
def getN (it : Item) (name : String) : Except DBError Int :=
  match getAttr it name with
  | none => .ok 0
  | some (.N n) => .ok n
  | some _ => .error (.unmarshalError ("cannot unmarshal attribute " ++ name))

/-- Read a map attribute; absent means the zero value (empty map). -/
def getM (it : Item) (name : String) : Except DBError (List (String × String)) :=
  match getAttr it name with
  | none => .ok []
  | some (.M m) => .ok m
  | some _ => .error (.unmarshalError ("cannot unmarshal attribute " ++ name))

/-- The `unmarshalAccount`: `dynamodbattribute.UnmarshalMap` into `Account`. -/
def unmarshalAccount (dbResult : Item) : Except DBError Account := do
  let id ← getS dbResult "Id"
  let status ← getS dbResult "AccountStatus"
  let adminRoleArn ← getS dbResult "AdminRoleArn"
  let principalRoleArn ← getS dbResult "PrincipalRoleArn"
  let principalPolicyHash ← getS dbResult "PrincipalPolicyHash"
  let metadata ← getM dbResult "Metadata"
  let createdOn ← getN dbResult "CreatedOn"
  let lastModifiedOn ← getN dbResult "LastModifiedOn"
  return { ID := id, Status := status, AdminRoleArn := adminRoleArn,
           PrincipalRoleArn := principalRoleArn,
           PrincipalPolicyHash := principalPolicyHash,
           Metadata := metadata, CreatedOn := createdOn,
           LastModifiedOn := lastModifiedOn }

/-- The `unmarshalLease`: `dynamodbattribute.UnmarshalMap` into `Lease`. -/
def unmarshalLease (dbResult : Item) : Except DBError Lease := do
  let accountID ← getS dbResult "AccountId"
  let principalID ← getS dbResult "PrincipalId"
  let id ← getS dbResult "Id"
  let leaseStatus ← getS dbResult "LeaseStatus"
  let leaseStatusReason ← getS dbResult "LeaseStatusReason"
  let leaseStatusModifiedOn ← getN dbResult "LeaseStatusModifiedOn"
  let expiresOn ← getN dbResult "ExpiresOn"
  let lastModifiedOn ← getN dbResult "LastModifiedOn"
  return { AccountID := accountID, PrincipalID := principalID, ID := id,
           LeaseStatus := leaseStatus,
           LeaseStatusReason := leaseStatusReason,
           LeaseStatusModifiedOn := leaseStatusModifiedOn,
           ExpiresOn := expiresOn, LastModifiedOn := lastModifiedOn }

/-- Serialize an `Account` to its stored item, using the same attribute
names `unmarshalAccount` reads. A well-formed stored account record is
`marshalAccount a` for some `a`. -/
def marshalAccount (a : Account) : Item :=
  [("Id", .S a.ID), ("AccountStatus", .S a.Status),
   ("AdminRoleArn", .S a.AdminRoleArn),
   ("PrincipalRoleArn", .S a.PrincipalRoleArn),
   ("PrincipalPolicyHash", .S a.PrincipalPolicyHash),
   ("Metadata", .M a.Metadata), ("CreatedOn", .N a.CreatedOn),
   ("LastModifiedOn", .N a.LastModifiedOn)]

/-- Serialize a `Lease` to its stored item, using the same attribute names
`unmarshalLease` reads. -/
def marshalLease (l : Lease) : Item :=
  [("AccountId", .S l.AccountID), ("PrincipalId", .S l.PrincipalID),
   ("Id", .S l.ID), ("LeaseStatus", .S l.LeaseStatus),
   ("LeaseStatusReason", .S l.LeaseStatusReason),
   ("LeaseStatusModifiedOn", .N l.LeaseStatusModifiedOn),
   ("ExpiresOn", .N l.ExpiresOn), ("LastModifiedOn", .N l.LastModifiedOn)]

/-! ## The `DB` service -/

/-- The `DB` service struct of `db.go` (client configuration and table
names), together with the contents of the two tables its client talks to —
the backing store is the only state the system has. -/
structure DB where
  AccountTableName : String
  LeaseTableName : String
  DefaultLeaseLengthInDays : Int
  ConsistentRead : Bool
  accountTable : List Item
  leaseTable : List Item
deriving DecidableEq, Repr

/-- A Go slice result: Go distinguishes a `nil` slice from a non-nil empty
one (`[]*Account{}`), and `db.go` is deliberate about which it returns. -/
inductive GoSlice (α : Type) where
  | nil
  | mk (elems : List α)
deriving DecidableEq, Repr

/-- A `nil` Go slice and a non-nil empty one both have length zero. -/
def GoSlice.isEmpty : GoSlice α → Bool
  | .nil => true
  | .mk l => l.isEmpty

/-- Is this the `nil` slice? -/
def GoSlice.isNil : GoSlice α → Bool
  | .nil => true
  | .mk _ => false

/-- Result of a store operation that may write: the Go return value, the
post-call backing store, and the trace of client round trips performed. -/
structure TxResult (α : Type) where
  result : Except DBError α
  db : DB
  ops : List StoreOp
deriving Repr

/-- The primary key of the account table. -/
def accountKey (accountID : String) : List (String × AttrVal) :=
  [("Id", .S accountID)]

/-- The composite primary key of the lease table. -/
def leaseKey (accountID principalID : String) : List (String × AttrVal) :=
  [("AccountId", .S accountID), ("PrincipalId", .S principalID)]

/-- The `GetAccount`: point lookup by primary key. `result.Item == nil` (no
matching item) yields `(nil, nil)` — an absent result, not an error. -/
def GetAccount (db : DB) (accountID : String) : Except DBError (Option Account) :=
  match dynGetItem db.accountTable (accountKey accountID) with
  | none => .ok none
  | some item =>
      match unmarshalAccount item with
      | .error e => .error e
      | .ok a => .ok (some a)

/-- The loop of `FindAccountsByStatus`: unmarshal each queried item,
stopping at the first failure; Go returns the accounts accumulated so far
together with the error. -/
def unmarshalAccounts : List Item → List Account × Option DBError
  | [] => ([], none)
  | item :: rest =>
      match unmarshalAccount item with
      | .error e => ([], some e)
      | .ok a =>
          let r := unmarshalAccounts rest
          (a :: r.1, r.2)

/-- The `FindAccountsByStatus`: query the `AccountStatus` secondary index.
The result slice starts as the non-nil `[]*Account{}`, so a zero-match
query returns an empty, never-nil slice and no error. -/
def FindAccountsByStatus (db : DB) (status : AccountStatus) :
    GoSlice Account × Option DBError :=
  let items := dynQuery db.accountTable "AccountStatus" (.S status)
  let r := unmarshalAccounts items
  (GoSlice.mk r.1, r.2)

/-- The `GetLeaseByID`: query the `LeaseId` secondary index on `Id`; fail on
zero matches and on more than one match; otherwise unmarshal the single
match. -/
def GetLeaseByID (db : DB) (leaseID : String) : Except DBError Lease :=
  let items := dynQuery db.leaseTable "Id" (.S leaseID)
  if items.length < 1 then
    .error (.goError ("No Lease found with id: " ++ leaseID))
  else if items.length > 1 then
    .error (.goError ("Found more than one Lease with id: " ++ leaseID))
  else
    match items.head? with
    | none => .error (.goError ("No Lease found with id: " ++ leaseID))
    | some item => unmarshalLease item

/-- The loop of `FindLeasesByPrincipal`: on the first unmarshal failure Go
returns `(nil, err)`, discarding leases accumulated so far. -/
def unmarshalLeases : List Item → Except DBError (List Lease)
  | [] => .ok []
  | item :: rest => do
      let l ← unmarshalLease item
      let ls ← unmarshalLeases rest
      return l :: ls

/-- The `FindLeasesByPrincipal`: query the `PrincipalId` secondary index; zero
matches yield `(nil, nil)` — a nil (hence empty) slice and no error. -/
def FindLeasesByPrincipal (db : DB) (principalID : String) :
    GoSlice Lease × Option DBError :=
  let items := dynQuery db.leaseTable "PrincipalId" (.S principalID)
  if items.length = 0 then (GoSlice.nil, none)
  else
    match unmarshalLeases items with
    | .error e => (GoSlice.nil, some e)
    | .ok ls => (GoSlice.mk ls, none)

/-! ## Expression builder -/

/-- The `containsStr` of `db.go`. -/
def containsStr (list : List String) (item : String) : Bool :=
  match list with
  | [] => false
  | i :: rest => if i = item then true else containsStr rest item

/-- A record presented to the expression builder as its reflected field
set: Go field name, the field's `json` tag (its external, serialized
name), and its value. -/
def FieldSet := List (String × String × AttrVal)

/-- Input to `buildUpdateExpression`: the reflected object, plus an
exclude-list or an include-list of Go field names (not both). -/
structure buildUpdateExpressInput where
  obj : FieldSet
  excludeFields : List String
  includeFields : List String

/-- The `buildUpdateExpression`: derive the `SET` assignments of a partial
update from the record's fields, skipping excluded (or not-included)
fields, and naming each assignment by the field's `json` tag so the update
targets the same identifiers used to marshal and unmarshal records.
Supplying both an exclude-list and an include-list is an error. -/
def buildUpdateExpression (input : buildUpdateExpressInput) :
    Except DBError (List (String × AttrVal)) :=
  let shouldExclude := decide (input.excludeFields.length > 0)
  let shouldInclude := decide (input.includeFields.length > 0)
  if shouldExclude && shouldInclude then
    .error (.goError ("unable to build DynDB update expression: " ++
      "request may specify includeFields or excludeFields, but not both"))
  else
    .ok (input.obj.filterMap (fun f =>
      let isExcluded := shouldExclude && containsStr input.excludeFields f.1
      let isNotIncluded := shouldInclude && !containsStr input.includeFields f.1
      if isExcluded || isNotIncluded then none
      else some (f.2.1, f.2.2)))

/-- Modelled from the spec: the reflected field set of a `Lease`
(`reflections.Items` plus the `json` tag of each field), for the `Lease`
struct definition missing from the excerpt. Go field names are the ones
`db.go` itself uses (`AccountID`, `PrincipalID`, `ID`, `ExpiresOn`);
external names are the attribute names `db.go` uses against the table. -/
def leaseFields (l : Lease) : FieldSet :=
  [("AccountID", "AccountId", .S l.AccountID),
   ("PrincipalID", "PrincipalId", .S l.PrincipalID),
   ("ID", "Id", .S l.ID),
   ("LeaseStatus", "LeaseStatus", .S l.LeaseStatus),
   ("LeaseStatusReason", "LeaseStatusReason", .S l.LeaseStatusReason),
   ("LeaseStatusModifiedOn", "LeaseStatusModifiedOn", .N l.LeaseStatusModifiedOn),
   ("ExpiresOn", "ExpiresOn", .N l.ExpiresOn),
   ("LastModifiedOn", "LastModifiedOn", .N l.LastModifiedOn)]

/-! ## Writes -/

/-- The validation message of `UpsertLease`
(`"failed to create lease for %s/%s: missing <field>"`, formatted with
`PrincipalID` then `AccountID`). -/
def upsertValidationMsg (lease : Lease) (field : String) : String :=
  "failed to create lease for " ++ lease.PrincipalID ++ "/" ++
    lease.AccountID ++ ": missing " ++ field

/-- The `UpsertLease`: validate `ID` and `ExpiresOn`, build the partial-update
expression excluding the immutable key fields, then execute one
unconditional `UpdateItem` keyed by `(AccountId, PrincipalId)` with
`ReturnValues: ALL_NEW`, and unmarshal the post-write image. -/
def UpsertLease (db : DB) (lease : Lease) : TxResult Lease :=
  if lease.ID = "" then
    { result := .error (.goError (upsertValidationMsg lease "ID")),
      db := db, ops := [] }
  else if lease.ExpiresOn = 0 then
    { result := .error (.goError (upsertValidationMsg lease "ExpiresOn")),
      db := db, ops := [] }
  else
    match buildUpdateExpression
        { obj := leaseFields lease,
          excludeFields := ["AccountID", "PrincipalID"],
          includeFields := [] } with
    | .error e =>
        { result := .error (.wrapped ("Failed to update lease " ++
            lease.PrincipalID ++ "/" ++ lease.AccountID) e),
          db := db, ops := [] }
    | .ok sets =>
        let key := leaseKey lease.AccountID lease.PrincipalID
        let op := StoreOp.updateItemOp db.LeaseTableName key false sets
        match dynUpdateItem db.leaseTable key none sets with
        | .error _ =>
            { result := .error (.wrapped ("Failed to update lease " ++
                lease.PrincipalID ++ "/" ++ lease.AccountID ++
                " [ConditionalCheckFailedException]")
                (.awsError "ConditionalCheckFailedException" "")),
              db := db, ops := [op] }
        | .ok r =>
            { result := unmarshalLease r.1,
              db := { db with leaseTable := r.2 }, ops := [op] }

/-- The guard-failure message of `TransitionLeaseStatus`. -/
def leaseTransitionErrMsg (prevStatus nextStatus : LeaseStatus)
    (accountID principalID : String) : String :=
  "unable to update lease status from \"" ++ prevStatus ++ "\" to \"" ++
    nextStatus ++ "\" for " ++ accountID ++ "/" ++ principalID ++
    ": no lease exists with Status=\"" ++ prevStatus ++ "\""

/-- The `TransitionLeaseStatus`: one `UpdateItem` keyed by
`(AccountId, PrincipalId)`, setting `LeaseStatus`, `LeaseStatusReason`,
`LastModifiedOn` and `LeaseStatusModifiedOn`, guarded by
`LeaseStatus = :prevStatus`, with `ReturnValues: ALL_NEW`. A
`ConditionalCheckFailedException` is translated into the dedicated
`StatusTransitionError`; the source reads the clock once per timestamp
attribute, modelled by the single `now`. -/
def TransitionLeaseStatus (db : DB) (accountID principalID : String)
    (prevStatus nextStatus : LeaseStatus)
    (leaseStatusReason : LeaseStatusReason) (now : Int) : TxResult Lease :=
  let key := leaseKey accountID principalID
  let sets := [("LeaseStatus", AttrVal.S nextStatus),
               ("LeaseStatusReason", AttrVal.S leaseStatusReason),
               ("LastModifiedOn", AttrVal.N now),
               ("LeaseStatusModifiedOn", AttrVal.N now)]
  let op := StoreOp.updateItemOp db.LeaseTableName key true sets
  match dynUpdateItem db.leaseTable key
      (some ("LeaseStatus", AttrVal.S prevStatus)) sets with
  | .error .conditionalCheckFailed =>
      { result := .error (.statusTransition
          (leaseTransitionErrMsg prevStatus nextStatus accountID principalID)),
        db := db, ops := [op] }
  | .ok r =>
      { result := unmarshalLease r.1,
        db := { db with leaseTable := r.2 }, ops := [op] }

/-- The guard-failure message of `TransitionAccountStatus`. -/
def accountTransitionErrMsg (prevStatus nextStatus : AccountStatus)
    (accountID : String) : String :=
  "unable to update account status from \"" ++ prevStatus ++ "\" to \"" ++
    nextStatus ++ "\" for account " ++ accountID ++
    ": no account exists with Status=\"" ++ prevStatus ++ "\""

/-- The `TransitionAccountStatus`: one `UpdateItem` keyed by `Id`, setting
`AccountStatus` and `LastModifiedOn`, guarded by
`AccountStatus = :prevStatus`, with `ReturnValues: ALL_NEW`. A
`ConditionalCheckFailedException` is translated into the dedicated
`StatusTransitionError`. -/
def TransitionAccountStatus (db : DB) (accountID : String)
    (prevStatus nextStatus : AccountStatus) (now : Int) : TxResult Account :=
  let key := accountKey accountID
  let sets := [("AccountStatus", AttrVal.S nextStatus),
               ("LastModifiedOn", AttrVal.N now)]
  let op := StoreOp.updateItemOp db.AccountTableName key true sets
  match dynUpdateItem db.accountTable key
      (some ("AccountStatus", AttrVal.S prevStatus)) sets with
  | .error .conditionalCheckFailed =>
      { result := .error (.statusTransition
          (accountTransitionErrMsg prevStatus nextStatus accountID)),
        db := db, ops := [op] }
  | .ok r =>
      { result := unmarshalAccount r.1,
        db := { db with accountTable := r.2 }, ops := [op] }

/-! ## Serialized concurrency model

Each transition is a single conditional `UpdateItem`; DynamoDB serializes
writes to one item, so any concurrent execution of identical transition
calls is equivalent to running them in some sequential order. `runCalls`
runs one such order, one call per clock reading. -/

/-- Run a sequence of identical `TransitionAccountStatus` calls, one per
clock reading, threading the backing store through; returns every call's
result and the final store. -/
def runCalls (accountID : String) (prevStatus nextStatus : AccountStatus) :
    List Int → DB → List (Except DBError Account) × DB
  | [], db => ([], db)
  | t :: ts, db =>
      let r := TransitionAccountStatus db accountID prevStatus nextStatus t
      let rest := runCalls accountID prevStatus nextStatus ts r.db
      (r.result :: rest.1, rest.2)

/-- Did the call succeed? -/
def isOkResult : Except DBError Account → Bool
  | .ok _ => true
  | .error _ => false

/-- Did the call fail with the dedicated `StatusTransitionError`? -/
def isStatusTransitionResult : Except DBError Account → Bool
  | .error (.statusTransition _) => true
  | _ => false

/-- The `SET` assignments `UpsertLease`'s expression builder produces for
a lease: every field except the immutable keys `AccountID`/`PrincipalID`,
named by serialized attribute name. -/
def leaseMutableAssignments (l : Lease) : List (String × AttrVal) :=
  [("Id", .S l.ID), ("LeaseStatus", .S l.LeaseStatus),
   ("LeaseStatusReason", .S l.LeaseStatusReason),
   ("LeaseStatusModifiedOn", .N l.LeaseStatusModifiedOn),
   ("ExpiresOn", .N l.ExpiresOn), ("LastModifiedOn", .N l.LastModifiedOn)]

/-! ## Concrete sample data (for witnesses) -/

/-- A sample stored account at status `Ready`. -/
def sampleAccount : Account :=
  { ID := "111", Status := "Ready", AdminRoleArn := "arn:admin",
    PrincipalRoleArn := "arn:principal", PrincipalPolicyHash := "h1",
    Metadata := [("k", "v")], CreatedOn := 5, LastModifiedOn := 10 }

/-- A sample stored lease at status `Active`. -/
def sampleLease : Lease :=
  { AccountID := "111", PrincipalID := "u1", ID := "lease-1",
    LeaseStatus := "Active", LeaseStatusReason := "new",
    LeaseStatusModifiedOn := 3, ExpiresOn := 1700000000,
    LastModifiedOn := 4 }

/-- A sample store holding `sampleAccount` and `sampleLease`. -/
def sampleDB : DB :=
  { AccountTableName := "Accounts", LeaseTableName := "Leases",
    DefaultLeaseLengthInDays := 7, ConsistentRead := false,
    accountTable := [marshalAccount sampleAccount],
    leaseTable := [marshalLease sampleLease] }

/-- A store with empty tables. -/
def emptyDB : DB :=
  { AccountTableName := "Accounts", LeaseTableName := "Leases",
    DefaultLeaseLengthInDays := 7, ConsistentRead := false,
    accountTable := [], leaseTable := [] }

/-- The account table after the stored record under `accountKey accountID`
is replaced by the marshalled `a'`. -/
def accountTableAfter (db : DB) (accountID : String) (a' : Account) : List Item :=
  updateFirst (fun x => itemMatchesKey x (accountKey accountID))
    (fun _ => marshalAccount a') db.accountTable

/-- The lease table after the stored record under
`leaseKey accountID principalID` is replaced by the marshalled `l'`. -/
def leaseTableAfter (db : DB) (accountID principalID : String) (l' : Lease) : List Item :=
  updateFirst (fun x => itemMatchesKey x (leaseKey accountID principalID))
    (fun _ => marshalLease l') db.leaseTable

/-! ## Helper lemmas -/

/-- Reading through a `setAttr`: the written attribute holds the new
value, every other attribute is unchanged. -/
theorem getAttr_setAttr (it : Item) (k n : String) (v : AttrVal) :
    getAttr (setAttr it k v) n = if n = k then some v else getAttr it n := by
  induction it with
  | nil =>
      by_cases h : k = n
      · simp [setAttr, getAttr, h]
      · simp [setAttr, getAttr, h, Ne.symm h]
  | cons kv rest ih =>
      obtain ⟨a, w⟩ := kv
      simp only [setAttr]
      by_cases hak : a = k
      · rw [if_pos hak]
        simp only [getAttr]
        by_cases han : a = n
        · simp [han, han.symm.trans hak]
        · have hnk : n ≠ k := fun h => han (hak.trans h.symm)
          simp [han, hnk]
      · rw [if_neg hak]
        simp only [getAttr]
        by_cases han : a = n
        · have hnk : n ≠ k := fun h => hak (han.trans h)
          simp [han, hnk]
        · simp [han, ih]

/-- Reading an attribute that none of the `SET` assignments touch gives
the stored value. -/
theorem getAttr_applySets (sets : List (String × AttrVal)) (it : Item)
    (n : String) (h : ∀ kv ∈ sets, kv.1 ≠ n) :
    getAttr (applySets it sets) n = getAttr it n := by
  induction sets generalizing it with
  | nil => simp [applySets]
  | cons kv rest ih =>
      have hkv : kv.1 ≠ n := h kv (by simp)
      have hrest : ∀ kv ∈ rest, kv.1 ≠ n := fun x hx => h x (by simp [hx])
      show getAttr (applySets (setAttr it kv.1 kv.2) rest) n = getAttr it n
      rw [ih (setAttr it kv.1 kv.2) hrest, getAttr_setAttr,
        if_neg (fun he : n = kv.1 => hkv he.symm)]

/-- Unmarshalling a marshalled account is the identity. -/
theorem unmarshalAccount_marshalAccount (a : Account) :
    unmarshalAccount (marshalAccount a) = .ok a := rfl

/-- Unmarshalling a marshalled lease is the identity. -/
theorem unmarshalLease_marshalLease (l : Lease) :
    unmarshalLease (marshalLease l) = .ok l := rfl

/-- The account transition's `SET` assignments, applied to a marshalled
account, produce the marshalled updated account. -/
theorem applySets_marshalAccount (a : Account) (next : AccountStatus) (now : Int) :
    applySets (marshalAccount a)
      [("AccountStatus", .S next), ("LastModifiedOn", .N now)] =
    marshalAccount { a with Status := next, LastModifiedOn := now } := rfl

/-- The lease transition's `SET` assignments, applied to a marshalled
lease, produce the marshalled updated lease. -/
theorem applySets_marshalLease (l : Lease) (next : LeaseStatus)
    (reason : LeaseStatusReason) (now : Int) :
    applySets (marshalLease l)
      [("LeaseStatus", .S next), ("LeaseStatusReason", .S reason),
       ("LastModifiedOn", .N now), ("LeaseStatusModifiedOn", .N now)] =
    marshalLease { l with LeaseStatus := next, LeaseStatusReason := reason,
                          LastModifiedOn := now,
                          LeaseStatusModifiedOn := now } := rfl

/-- A conditional `UpdateItem` against an absent item fails the
condition check. -/
theorem dynUpdateItem_absent (table : List Item)
    (key : List (String × AttrVal)) (cond : String × AttrVal)
    (sets : List (String × AttrVal)) (hfind : dynGetItem table key = none) :
    dynUpdateItem table key (some cond) sets =
      .error .conditionalCheckFailed := by
  unfold dynUpdateItem
  rw [hfind]

/-- A conditional `UpdateItem` against an item whose guarded attribute
does not hold the expected value fails the condition check. -/
theorem dynUpdateItem_condFail (table : List Item)
    (key : List (String × AttrVal)) (cond : String × AttrVal)
    (sets : List (String × AttrVal)) (it : Item)
    (hfind : dynGetItem table key = some it)
    (hs : getAttr it cond.1 ≠ some cond.2) :
    dynUpdateItem table key (some cond) sets =
      .error .conditionalCheckFailed := by
  unfold dynUpdateItem
  rw [hfind]
  simp [hs]

/-- A conditional `UpdateItem` whose guard holds applies the assignments
in place and returns the post-write image. -/
theorem dynUpdateItem_condOk (table : List Item)
    (key : List (String × AttrVal)) (cond : String × AttrVal)
    (sets : List (String × AttrVal)) (it : Item)
    (hfind : dynGetItem table key = some it)
    (hs : getAttr it cond.1 = some cond.2) :
    dynUpdateItem table key (some cond) sets =
      .ok (applySets it sets,
        updateFirst (fun x => itemMatchesKey x key)
          (fun _ => applySets it sets) table) := by
  unfold dynUpdateItem
  rw [hfind]
  simp [hs]

/-- The `updateFirst` rewrites exactly the item `find?` locates, provided the
rewritten item still satisfies the predicate. -/
theorem find?_updateFirst (p : Item → Bool) (f : Item → Item)
    (l : List Item) (x : Item) (h : l.find? p = some x)
    (hpf : p (f x) = true) :
    (updateFirst p f l).find? p = some (f x) := by
  induction l with
  | nil => simp at h
  | cons it rest ih =>
      by_cases hp : p it
      · have hx : it = x := by simpa [List.find?_cons, hp] using h
        subst hx
        simp [updateFirst, hp, List.find?_cons, hpf]
      · have h' : rest.find? p = some x := by
          simpa [List.find?_cons, hp] using h
        simp [updateFirst, hp, List.find?_cons, ih h']

/-- A stored account item found under `accountKey accountID` carries that
id. -/
theorem marshalAccount_key_id (table : List Item) (accountID : String)
    (a : Account)
    (hfind : dynGetItem table (accountKey accountID) = some (marshalAccount a)) :
    a.ID = accountID := by
  have h := List.find?_some hfind
  simp [itemMatchesKey, accountKey, getAttr, marshalAccount] at h
  exact h

/-- A stored lease item found under `leaseKey accountID principalID`
carries those ids. -/
theorem marshalLease_key_ids (table : List Item)
    (accountID principalID : String) (l : Lease)
    (hfind : dynGetItem table (leaseKey accountID principalID) =
      some (marshalLease l)) :
    l.AccountID = accountID ∧ l.PrincipalID = principalID := by
  have h := List.find?_some hfind
  simp [itemMatchesKey, leaseKey, getAttr, marshalLease] at h
  exact h

/-- The account transition's exact behaviour when the record exists and
the stored status differs from the expected one: the dedicated
`StatusTransitionError`, an unchanged store, one conditional write. -/
theorem transitionAccount_guardFail (db : DB) (accountID : String)
    (prevStatus nextStatus : AccountStatus) (now : Int) (it : Item)
    (hfind : dynGetItem db.accountTable (accountKey accountID) = some it)
    (hs : getAttr it "AccountStatus" ≠ some (.S prevStatus)) :
    TransitionAccountStatus db accountID prevStatus nextStatus now =
      { result := .error (.statusTransition (accountTransitionErrMsg prevStatus nextStatus accountID)),
        db := db,
        ops := [.updateItemOp db.AccountTableName (accountKey accountID) true [("AccountStatus", .S nextStatus), ("LastModifiedOn", .N now)]] } := by
  simp only [TransitionAccountStatus]
  rw [dynUpdateItem_condFail _ _ ("AccountStatus", .S prevStatus) _ it hfind hs]

/-- The account transition's exact behaviour when the record is absent:
the condition over the non-existent item fails. -/
theorem transitionAccount_absent (db : DB) (accountID : String)
    (prevStatus nextStatus : AccountStatus) (now : Int)
    (hfind : dynGetItem db.accountTable (accountKey accountID) = none) :
    TransitionAccountStatus db accountID prevStatus nextStatus now =
      { result := .error (.statusTransition (accountTransitionErrMsg prevStatus nextStatus accountID)),
        db := db,
        ops := [.updateItemOp db.AccountTableName (accountKey accountID) true [("AccountStatus", .S nextStatus), ("LastModifiedOn", .N now)]] } := by
  simp only [TransitionAccountStatus]
  rw [dynUpdateItem_absent _ _ ("AccountStatus", .S prevStatus) _ hfind]

/-- The account transition's exact behaviour when the stored status equals
the expected one: the stored item is rewritten in place and the post-write
record is returned. -/
theorem transitionAccount_ok (db : DB) (accountID : String) (a : Account)
    (nextStatus : AccountStatus) (now : Int)
    (hfind : dynGetItem db.accountTable (accountKey accountID) =
      some (marshalAccount a)) :
    TransitionAccountStatus db accountID a.Status nextStatus now =
      { result := .ok { a with Status := nextStatus, LastModifiedOn := now },
        db := { db with accountTable := accountTableAfter db accountID { a with Status := nextStatus, LastModifiedOn := now } },
        ops := [.updateItemOp db.AccountTableName (accountKey accountID) true [("AccountStatus", .S nextStatus), ("LastModifiedOn", .N now)]] } := by
  simp only [TransitionAccountStatus]
  rw [dynUpdateItem_condOk _ _ ("AccountStatus", .S a.Status) _ _ hfind rfl,
    applySets_marshalAccount]
  simp [unmarshalAccount_marshalAccount, accountTableAfter]

/-- After a successful account transition the updated record is stored
under the same key. -/
theorem transitionAccount_post_find (db : DB) (accountID : String)
    (a : Account) (nextStatus : AccountStatus) (now : Int)
    (hfind : dynGetItem db.accountTable (accountKey accountID) =
      some (marshalAccount a)) :
    dynGetItem (accountTableAfter db accountID { a with Status := nextStatus, LastModifiedOn := now }) (accountKey accountID) =
      some (marshalAccount { a with Status := nextStatus, LastModifiedOn := now }) := by
  have hid : a.ID = accountID := marshalAccount_key_id _ _ _ hfind
  have hp : itemMatchesKey
      (marshalAccount { a with Status := nextStatus, LastModifiedOn := now })
      (accountKey accountID) = true := by
    simp [itemMatchesKey, accountKey, getAttr, marshalAccount, hid]
  exact find?_updateFirst _ _ _ _ hfind hp

/-- The lease transition's exact behaviour when the record exists and the
stored status differs from the expected one. -/
theorem transitionLease_guardFail (db : DB) (accountID principalID : String)
    (prevStatus nextStatus : LeaseStatus) (reason : LeaseStatusReason)
    (now : Int) (it : Item)
    (hfind : dynGetItem db.leaseTable (leaseKey accountID principalID) = some it)
    (hs : getAttr it "LeaseStatus" ≠ some (.S prevStatus)) :
    TransitionLeaseStatus db accountID principalID prevStatus nextStatus reason now =
      { result := .error (.statusTransition (leaseTransitionErrMsg prevStatus nextStatus accountID principalID)),
        db := db,
        ops := [.updateItemOp db.LeaseTableName (leaseKey accountID principalID) true [("LeaseStatus", .S nextStatus), ("LeaseStatusReason", .S reason), ("LastModifiedOn", .N now), ("LeaseStatusModifiedOn", .N now)]] } := by
  simp only [TransitionLeaseStatus]
  rw [dynUpdateItem_condFail _ _ ("LeaseStatus", .S prevStatus) _ it hfind hs]

/-- The lease transition's exact behaviour when the record is absent. -/
theorem transitionLease_absent (db : DB) (accountID principalID : String)
    (prevStatus nextStatus : LeaseStatus) (reason : LeaseStatusReason)
    (now : Int)
    (hfind : dynGetItem db.leaseTable (leaseKey accountID principalID) = none) :
    TransitionLeaseStatus db accountID principalID prevStatus nextStatus reason now =
      { result := .error (.statusTransition (leaseTransitionErrMsg prevStatus nextStatus accountID principalID)),
        db := db,
        ops := [.updateItemOp db.LeaseTableName (leaseKey accountID principalID) true [("LeaseStatus", .S nextStatus), ("LeaseStatusReason", .S reason), ("LastModifiedOn", .N now), ("LeaseStatusModifiedOn", .N now)]] } := by
  simp only [TransitionLeaseStatus]
  rw [dynUpdateItem_absent _ _ ("LeaseStatus", .S prevStatus) _ hfind]

/-- The lease transition's exact behaviour when the stored status equals
the expected one. -/
theorem transitionLease_ok (db : DB) (accountID principalID : String)
    (l : Lease) (nextStatus : LeaseStatus) (reason : LeaseStatusReason)
    (now : Int)
    (hfind : dynGetItem db.leaseTable (leaseKey accountID principalID) =
      some (marshalLease l)) :
    TransitionLeaseStatus db accountID principalID l.LeaseStatus nextStatus reason now =
      { result := .ok { l with LeaseStatus := nextStatus, LeaseStatusReason := reason, LastModifiedOn := now, LeaseStatusModifiedOn := now },
        db := { db with leaseTable := leaseTableAfter db accountID principalID { l with LeaseStatus := nextStatus, LeaseStatusReason := reason, LastModifiedOn := now, LeaseStatusModifiedOn := now } },
        ops := [.updateItemOp db.LeaseTableName (leaseKey accountID principalID) true [("LeaseStatus", .S nextStatus), ("LeaseStatusReason", .S reason), ("LastModifiedOn", .N now), ("LeaseStatusModifiedOn", .N now)]] } := by
  simp only [TransitionLeaseStatus]
  rw [dynUpdateItem_condOk _ _ ("LeaseStatus", .S l.LeaseStatus) _ _ hfind rfl,
    applySets_marshalLease]
  simp [unmarshalLease_marshalLease, leaseTableAfter]

/-- An unconditional `UpdateItem` never raises a condition failure. -/
theorem dynUpdateItem_unconditional (table : List Item)
    (key sets : List (String × AttrVal)) :
    ∃ r, dynUpdateItem table key none sets = .ok r := by
  unfold dynUpdateItem
  cases dynGetItem table key <;> simp

/-- Unfolding one step of the serialized sequence of identical account
transitions. -/
theorem runCalls_cons (accountID : String)
    (prevStatus nextStatus : AccountStatus) (t : Int) (ts : List Int)
    (db : DB) :
    runCalls accountID prevStatus nextStatus (t :: ts) db =
      ((TransitionAccountStatus db accountID prevStatus nextStatus t).result ::
        (runCalls accountID prevStatus nextStatus ts
          (TransitionAccountStatus db accountID prevStatus nextStatus t).db).1,
       (runCalls accountID prevStatus nextStatus ts
          (TransitionAccountStatus db accountID prevStatus nextStatus t).db).2) := rfl

/-- When the stored status does not match the expected source status,
every call of a serialized sequence of identical transitions fails with a
`StatusTransitionError` and the store is left unchanged. -/
theorem runCalls_all_fail (accountID : String)
    (prevStatus nextStatus : AccountStatus) (times : List Int) (db : DB)
    (it : Item)
    (hfind : dynGetItem db.accountTable (accountKey accountID) = some it)
    (hs : getAttr it "AccountStatus" ≠ some (.S prevStatus)) :
    (runCalls accountID prevStatus nextStatus times db).1.all
      isStatusTransitionResult = true ∧
    (runCalls accountID prevStatus nextStatus times db).2 = db := by
  induction times with
  | nil => exact ⟨rfl, rfl⟩
  | cons t ts ih =>
      have h1 := transitionAccount_guardFail db accountID prevStatus
        nextStatus t it hfind hs
      rw [runCalls_cons, h1]
      exact ⟨by simp [isStatusTransitionResult, ih.1], ih.2⟩

/-- A sequence of calls that all fail with `StatusTransitionError`
contains no successful call. -/
theorem countOk_of_all_fail (rs : List (Except DBError Account))
    (h : rs.all isStatusTransitionResult = true) :
    rs.countP isOkResult = 0 := by
  induction rs with
  | nil => rfl
  | cons r rest ih =>
      simp only [List.all_cons, Bool.and_eq_true] at h
      have hr : isOkResult r = false := by
        cases r with
        | ok a => simp [isStatusTransitionResult] at h
        | error e => rfl
      simp [List.countP_cons, hr, ih h.2]

/-! ## Claims -/

/-- C1: if the stored account (resp. lease) record exists and its stored
status differs from `prevStatus`, `TransitionAccountStatus`
(resp. `TransitionLeaseStatus`) fails with a `StatusTransitionError`
naming the ids and the attempted prev/next statuses, for every
`nextStatus`; the error is the dedicated status-transition kind, distinct
from a generic backing-store error. -/
theorem claim1_transition_guard_mismatch (db : DB)
    (accountID principalID : String) (prevA nextA : AccountStatus)
    (prevL nextL : LeaseStatus) (reason : LeaseStatusReason) (now : Int)
    (itA itL : Item)
    (hA : dynGetItem db.accountTable (accountKey accountID) = some itA)
    (hAs : getAttr itA "AccountStatus" ≠ some (.S prevA))
    (hL : dynGetItem db.leaseTable (leaseKey accountID principalID) = some itL)
    (hLs : getAttr itL "LeaseStatus" ≠ some (.S prevL)) :
    (TransitionAccountStatus db accountID prevA nextA now).result =
      .error (.statusTransition (accountTransitionErrMsg prevA nextA accountID)) ∧
    (TransitionLeaseStatus db accountID principalID prevL nextL reason now).result =
      .error (.statusTransition (leaseTransitionErrMsg prevL nextL accountID principalID)) ∧
    DBError.isStatusTransition (.statusTransition (accountTransitionErrMsg prevA nextA accountID)) = true ∧
    DBError.isBackingStoreError (.statusTransition (accountTransitionErrMsg prevA nextA accountID)) = false ∧
    DBError.isStatusTransition (.statusTransition (leaseTransitionErrMsg prevL nextL accountID principalID)) = true ∧
    DBError.isBackingStoreError (.statusTransition (leaseTransitionErrMsg prevL nextL accountID principalID)) = false := by
  refine ⟨?_, ?_, rfl, rfl, rfl, rfl⟩
  · rw [transitionAccount_guardFail db accountID prevA nextA now itA hA hAs]
  · rw [transitionLease_guardFail db accountID principalID prevL nextL reason now itL hL hLs]

/-- Witness for C1 at the sample store: stored statuses are `Ready` /
`Active`, the attempted transitions expect `NotReady` / `Inactive`. -/
theorem claim1_witness :
    (TransitionAccountStatus sampleDB "111" "NotReady" "Leased" 42).result =
      .error (.statusTransition (accountTransitionErrMsg "NotReady" "Leased" "111")) ∧
    (TransitionLeaseStatus sampleDB "111" "u1" "Inactive" "Active" "r" 42).result =
      .error (.statusTransition (leaseTransitionErrMsg "Inactive" "Active" "111" "u1")) ∧
    DBError.isStatusTransition (.statusTransition (accountTransitionErrMsg "NotReady" "Leased" "111")) = true ∧
    DBError.isBackingStoreError (.statusTransition (accountTransitionErrMsg "NotReady" "Leased" "111")) = false ∧
    DBError.isStatusTransition (.statusTransition (leaseTransitionErrMsg "Inactive" "Active" "111" "u1")) = true ∧
    DBError.isBackingStoreError (.statusTransition (leaseTransitionErrMsg "Inactive" "Active" "111" "u1")) = false :=
  claim1_transition_guard_mismatch sampleDB "111" "u1" "NotReady" "Leased"
    "Inactive" "Active" "r" 42 (marshalAccount sampleAccount)
    (marshalLease sampleLease) (by decide) (by decide) (by decide) (by decide)

/-- C2: when the stored account's status equals `prevStatus`,
`TransitionAccountStatus` succeeds, returning the post-write record whose
`Status` is `nextStatus` and whose `LastModifiedOn` is refreshed to the
write-time clock, and the stored record is updated accordingly. -/
theorem claim2_transition_account_success (db : DB) (accountID : String)
    (a : Account) (nextStatus : AccountStatus) (now : Int)
    (hfind : dynGetItem db.accountTable (accountKey accountID) =
      some (marshalAccount a)) :
    (TransitionAccountStatus db accountID a.Status nextStatus now).result =
      .ok { a with Status := nextStatus, LastModifiedOn := now } ∧
    dynGetItem (TransitionAccountStatus db accountID a.Status nextStatus now).db.accountTable
        (accountKey accountID) =
      some (marshalAccount { a with Status := nextStatus, LastModifiedOn := now }) := by
  rw [transitionAccount_ok db accountID a nextStatus now hfind]
  exact ⟨rfl, transitionAccount_post_find db accountID a nextStatus now hfind⟩

/-- Witness for C2: account `111` at `Ready` transitions to `Leased`. -/
theorem claim2_witness :
    (TransitionAccountStatus sampleDB "111" sampleAccount.Status "Leased" 100).result =
      .ok { sampleAccount with Status := "Leased", LastModifiedOn := 100 } ∧
    dynGetItem (TransitionAccountStatus sampleDB "111" sampleAccount.Status "Leased" 100).db.accountTable
        (accountKey "111") =
      some (marshalAccount { sampleAccount with Status := "Leased", LastModifiedOn := 100 }) :=
  claim2_transition_account_success sampleDB "111" sampleAccount "Leased" 100 (by decide)

/-- C8: `GetAccount` on an id with no stored record returns an absent
result (`nil` account) and no error. -/
theorem claim8_get_account_absent (db : DB) (accountID : String)
    (h : dynGetItem db.accountTable (accountKey accountID) = none) :
    GetAccount db accountID = .ok none := by
  simp [GetAccount, h]

/-- Witness for C8 at the empty store. -/
theorem claim8_witness :
    dynGetItem emptyDB.accountTable (accountKey "000") = none ∧
    GetAccount emptyDB "000" = .ok none :=
  ⟨by decide, claim8_get_account_absent emptyDB "000" (by decide)⟩

/-- C10: transitioning an account (resp. lease) that has no stored record
at all yields a `StatusTransitionError` — the conditional guard fails on
the absent record — and the store is unchanged: nothing is created or
modified. -/
theorem claim10_transition_absent_record (db : DB)
    (accountID principalID : String) (prevA nextA : AccountStatus)
    (prevL nextL : LeaseStatus) (reason : LeaseStatusReason) (now : Int)
    (hA : dynGetItem db.accountTable (accountKey accountID) = none)
    (hL : dynGetItem db.leaseTable (leaseKey accountID principalID) = none) :
    (TransitionAccountStatus db accountID prevA nextA now).result =
      .error (.statusTransition (accountTransitionErrMsg prevA nextA accountID)) ∧
    (TransitionAccountStatus db accountID prevA nextA now).db = db ∧
    (TransitionLeaseStatus db accountID principalID prevL nextL reason now).result =
      .error (.statusTransition (leaseTransitionErrMsg prevL nextL accountID principalID)) ∧
    (TransitionLeaseStatus db accountID principalID prevL nextL reason now).db = db := by
  rw [transitionAccount_absent db accountID prevA nextA now hA,
    transitionLease_absent db accountID principalID prevL nextL reason now hL]
  exact ⟨rfl, rfl, rfl, rfl⟩

/-- Witness for C10 at the empty store. -/
theorem claim10_witness :
    (TransitionAccountStatus emptyDB "999" "Ready" "Leased" 7).result =
      .error (.statusTransition (accountTransitionErrMsg "Ready" "Leased" "999")) ∧
    (TransitionAccountStatus emptyDB "999" "Ready" "Leased" 7).db = emptyDB ∧
    (TransitionLeaseStatus emptyDB "999" "u9" "Active" "Inactive" "done" 7).result =
      .error (.statusTransition (leaseTransitionErrMsg "Active" "Inactive" "999" "u9")) ∧
    (TransitionLeaseStatus emptyDB "999" "u9" "Active" "Inactive" "done" 7).db = emptyDB :=
  claim10_transition_absent_record emptyDB "999" "u9" "Ready" "Leased"
    "Active" "Inactive" "done" 7 (by decide) (by decide)

/-- Counterexample to C3 as stated: when `nextStatus = prevStatus`, a
serialized pair of identical calls `TransitionAccountStatus("111", Ready,
Ready)` against an account stored at `Ready` BOTH succeed — the second
caller does not receive a `StatusTransitionError`, because the first
write leaves the stored status equal to the guard value. -/
theorem claim3_counterexample :
    (TransitionAccountStatus sampleDB "111" "Ready" "Ready" 100).result =
      .ok { sampleAccount with Status := "Ready", LastModifiedOn := 100 } ∧
    (TransitionAccountStatus (TransitionAccountStatus sampleDB "111" "Ready" "Ready" 100).db
        "111" "Ready" "Ready" 101).result =
      .ok { sampleAccount with Status := "Ready", LastModifiedOn := 101 } :=
  ⟨rfl, rfl⟩

/-- C3 (amended): provided `nextStatus ≠ prevStatus`, in any serialized
order of concurrent identical calls `TransitionAccountStatus(A, S, S')`
against an account stored with status `S`, exactly one call succeeds —
the first — and every other call receives a `StatusTransitionError`;
moreover the transition performs no read, only a single conditional
write (its backing-store trace is one condition-guarded `UpdateItem`). -/
theorem claim3_amended_exactly_one_success (db : DB) (accountID : String)
    (a : Account) (nextStatus : AccountStatus) (t : Int) (ts : List Int)
    (hfind : dynGetItem db.accountTable (accountKey accountID) =
      some (marshalAccount a))
    (hne : nextStatus ≠ a.Status) :
    (runCalls accountID a.Status nextStatus (t :: ts) db).1.countP isOkResult = 1 ∧
    (runCalls accountID a.Status nextStatus (t :: ts) db).1.head? =
      some (.ok { a with Status := nextStatus, LastModifiedOn := t }) ∧
    (runCalls accountID a.Status nextStatus (t :: ts) db).1.tail.all
      isStatusTransitionResult = true ∧
    (TransitionAccountStatus db accountID a.Status nextStatus t).ops =
      [.updateItemOp db.AccountTableName (accountKey accountID) true
        [("AccountStatus", .S nextStatus), ("LastModifiedOn", .N t)]] ∧
    ((TransitionAccountStatus db accountID a.Status nextStatus t).ops.filter
      StoreOp.isRead) = [] := by
  have h1 := transitionAccount_ok db accountID a nextStatus t hfind
  have hpost := transitionAccount_post_find db accountID a nextStatus t hfind
  have hfind' : dynGetItem
      (TransitionAccountStatus db accountID a.Status nextStatus t).db.accountTable
      (accountKey accountID) =
      some (marshalAccount { a with Status := nextStatus, LastModifiedOn := t }) := by
    rw [h1]
    exact hpost
  have hs : getAttr (marshalAccount { a with Status := nextStatus, LastModifiedOn := t })
      "AccountStatus" ≠ some (.S a.Status) := by
    intro h
    simp [marshalAccount, getAttr] at h
    exact hne h
  have hfail := runCalls_all_fail accountID a.Status nextStatus ts
    (TransitionAccountStatus db accountID a.Status nextStatus t).db
    (marshalAccount { a with Status := nextStatus, LastModifiedOn := t })
    hfind' hs
  refine ⟨?_, ?_, ?_, ?_, ?_⟩
  · rw [runCalls_cons]
    simp only [List.countP_cons]
    rw [countOk_of_all_fail _ hfail.1, h1]
    rfl
  · rw [runCalls_cons, h1]
    rfl
  · rw [runCalls_cons]
    exact hfail.1
  · rw [h1]
  · rw [h1]
    rfl

/-- Witness for the amended C3: two serialized calls
`Ready → Leased` against the sample store; the first succeeds, the second
fails. -/
theorem claim3_witness :
    (runCalls "111" sampleAccount.Status "Leased" [100, 101] sampleDB).1.countP isOkResult = 1 ∧
    (runCalls "111" sampleAccount.Status "Leased" [100, 101] sampleDB).1.head? =
      some (.ok { sampleAccount with Status := "Leased", LastModifiedOn := 100 }) ∧
    (runCalls "111" sampleAccount.Status "Leased" [100, 101] sampleDB).1.tail.all
      isStatusTransitionResult = true ∧
    (TransitionAccountStatus sampleDB "111" sampleAccount.Status "Leased" 100).ops =
      [.updateItemOp sampleDB.AccountTableName (accountKey "111") true
        [("AccountStatus", .S "Leased"), ("LastModifiedOn", .N 100)]] ∧
    ((TransitionAccountStatus sampleDB "111" sampleAccount.Status "Leased" 100).ops.filter
      StoreOp.isRead) = [] :=
  claim3_amended_exactly_one_success sampleDB "111" sampleAccount "Leased"
    100 [101] (by decide) (by decide)

/-- C4: `UpsertLease` with an empty `ID` or a zero `ExpiresOn` fails with
a validation error naming the lease's `PrincipalID` and `AccountID`,
leaves the store untouched, and performs no backing-store call at all. -/
theorem claim4_upsert_validation (db : DB) (lease : Lease)
    (h : lease.ID = "" ∨ lease.ExpiresOn = 0) :
    (UpsertLease db lease).result = .error (.goError
      (upsertValidationMsg lease (if lease.ID = "" then "ID" else "ExpiresOn"))) ∧
    (UpsertLease db lease).db = db ∧
    (UpsertLease db lease).ops = [] := by
  by_cases hID : lease.ID = ""
  · simp [UpsertLease, hID]
  · have hExp : lease.ExpiresOn = 0 := by
      rcases h with h | h
      · exact absurd h hID
      · exact h
    simp [UpsertLease, hID, hExp]

/-- Witness for C4: the sample lease with its `ID` blanked out. -/
theorem claim4_witness :
    ({ sampleLease with ID := "" } : Lease).ID = "" ∧
    (UpsertLease sampleDB { sampleLease with ID := "" }).result =
      .error (.goError (upsertValidationMsg { sampleLease with ID := "" } "ID")) ∧
    (UpsertLease sampleDB { sampleLease with ID := "" }).db = sampleDB ∧
    (UpsertLease sampleDB { sampleLease with ID := "" }).ops = [] :=
  ⟨rfl, claim4_upsert_validation sampleDB { sampleLease with ID := "" } (.inl rfl)⟩

/-- C5: `GetLeaseByID` fails with the "no lease found" error when the
`Id` index matches zero records, fails with the "more than one lease"
error when it matches two or more, and returns the unmarshalled record
exactly when it matches one. -/
theorem claim5_get_lease_by_id_cases (db : DB) (leaseID : String) :
    (dynQuery db.leaseTable "Id" (.S leaseID) = [] →
      GetLeaseByID db leaseID =
        .error (.goError ("No Lease found with id: " ++ leaseID))) ∧
    (1 < (dynQuery db.leaseTable "Id" (.S leaseID)).length →
      GetLeaseByID db leaseID =
        .error (.goError ("Found more than one Lease with id: " ++ leaseID))) ∧
    (∀ it : Item, dynQuery db.leaseTable "Id" (.S leaseID) = [it] →
      GetLeaseByID db leaseID = unmarshalLease it) := by
  refine ⟨?_, ?_, ?_⟩
  · intro h
    simp [GetLeaseByID, h]
  · intro h
    have h0 : ¬((dynQuery db.leaseTable "Id" (.S leaseID)).length < 1) := by omega
    simp [GetLeaseByID, h0, h]
  · intro it h
    simp [GetLeaseByID, h]

/-- Witness for C5: the zero-match case at the empty store and the
one-match case at the sample store. -/
theorem claim5_witness :
    GetLeaseByID emptyDB "lease-1" =
      .error (.goError ("No Lease found with id: " ++ "lease-1")) ∧
    GetLeaseByID sampleDB "lease-1" = unmarshalLease (marshalLease sampleLease) :=
  ⟨(claim5_get_lease_by_id_cases emptyDB "lease-1").1 (by decide),
   (claim5_get_lease_by_id_cases sampleDB "lease-1").2.2
     (marshalLease sampleLease) (by decide)⟩

/-- C6: for a valid lease, the partial-update expression `UpsertLease`
executes assigns every field except the immutable key fields `AccountID`
and `PrincipalID`: the assignment set is exactly the six mutable fields,
contains neither key attribute, the single write issued carries those
assignments, and applying them never changes the stored `AccountId` or
`PrincipalId` attributes. -/
theorem claim6_upsert_excludes_key_fields (db : DB) (lease : Lease)
    (hID : lease.ID ≠ "") (hExp : lease.ExpiresOn ≠ 0) :
    buildUpdateExpression ⟨leaseFields lease, ["AccountID", "PrincipalID"], []⟩ =
      .ok (leaseMutableAssignments lease) ∧
    ((leaseMutableAssignments lease).map Prod.fst).contains "AccountId" = false ∧
    ((leaseMutableAssignments lease).map Prod.fst).contains "PrincipalId" = false ∧
    (UpsertLease db lease).ops =
      [.updateItemOp db.LeaseTableName (leaseKey lease.AccountID lease.PrincipalID)
        false (leaseMutableAssignments lease)] ∧
    (∀ it : Item,
      getAttr (applySets it (leaseMutableAssignments lease)) "AccountId" =
        getAttr it "AccountId" ∧
      getAttr (applySets it (leaseMutableAssignments lease)) "PrincipalId" =
        getAttr it "PrincipalId") := by
  have hb : buildUpdateExpression ⟨leaseFields lease, ["AccountID", "PrincipalID"], []⟩ =
      .ok (leaseMutableAssignments lease) := rfl
  have hfresh : ∀ kv ∈ leaseMutableAssignments lease,
      kv.1 ≠ "AccountId" ∧ kv.1 ≠ "PrincipalId" := by
    intro kv hkv
    simp [leaseMutableAssignments] at hkv
    rcases hkv with h | h | h | h | h | h <;> subst h <;> exact ⟨by simp, by simp⟩
  refine ⟨hb, rfl, rfl, ?_, ?_⟩
  · obtain ⟨r, hr⟩ := dynUpdateItem_unconditional db.leaseTable
      (leaseKey lease.AccountID lease.PrincipalID) (leaseMutableAssignments lease)
    simp [UpsertLease, hID, hExp, hb, hr]
  · intro it
    exact ⟨getAttr_applySets _ it _ (fun kv hkv => (hfresh kv hkv).1),
      getAttr_applySets _ it _ (fun kv hkv => (hfresh kv hkv).2)⟩

/-- Witness for C6 at the sample lease: the write trace carries exactly
the mutable assignments, and applying them to the stored item leaves both
key attributes unchanged. -/
theorem claim6_witness :
    (UpsertLease sampleDB sampleLease).ops =
      [.updateItemOp "Leases" (leaseKey "111" "u1") false
        (leaseMutableAssignments sampleLease)] ∧
    getAttr (applySets (marshalLease sampleLease)
        (leaseMutableAssignments sampleLease)) "AccountId" =
      getAttr (marshalLease sampleLease) "AccountId" :=
  ⟨(claim6_upsert_excludes_key_fields sampleDB sampleLease (by decide) (by decide)).2.2.2.1,
   ((claim6_upsert_excludes_key_fields sampleDB sampleLease (by decide) (by decide)).2.2.2.2
     (marshalLease sampleLease)).1⟩

/-- C7: the field names the expression builder emits are the record's
external (serialized) attribute names — the very names `unmarshalLease`
reads — so an item written under the generated names round-trips through
unmarshalling to the original record. -/
theorem claim7_update_names_match_serialized (l : Lease) :
    buildUpdateExpression ⟨leaseFields l, [], []⟩ =
      .ok ((leaseFields l).map (fun f => (f.2.1, f.2.2))) ∧
    (leaseFields l).map (fun f => f.2.1) =
      ["AccountId", "PrincipalId", "Id", "LeaseStatus", "LeaseStatusReason",
       "LeaseStatusModifiedOn", "ExpiresOn", "LastModifiedOn"] ∧
    unmarshalLease ((leaseFields l).map (fun f => (f.2.1, f.2.2))) = .ok l :=
  ⟨rfl, rfl, rfl⟩

/-- C9: `FindAccountsByStatus` with zero matches returns a non-nil empty
slice and no error; `FindLeasesByPrincipal` with zero matches returns an
empty (nil) result and no error. -/
theorem claim9_find_empty_results (db : DB) (status : AccountStatus)
    (principalID : String)
    (hA : dynQuery db.accountTable "AccountStatus" (.S status) = [])
    (hL : dynQuery db.leaseTable "PrincipalId" (.S principalID) = []) :
    FindAccountsByStatus db status = (GoSlice.mk [], none) ∧
    (FindAccountsByStatus db status).1.isNil = false ∧
    (FindAccountsByStatus db status).1.isEmpty = true ∧
    FindLeasesByPrincipal db principalID = (GoSlice.nil, none) ∧
    (FindLeasesByPrincipal db principalID).1.isEmpty = true := by
  have h1 : FindAccountsByStatus db status = (GoSlice.mk [], none) := by
    simp [FindAccountsByStatus, hA, unmarshalAccounts]
  have h2 : FindLeasesByPrincipal db principalID = (GoSlice.nil, none) := by
    simp [FindLeasesByPrincipal, hL]
  refine ⟨h1, ?_, ?_, h2, ?_⟩
  · rw [h1]
    rfl
  · rw [h1]
    rfl
  · rw [h2]
    rfl

/-- Witness for C9 at the empty store. -/
theorem claim9_witness :
    FindAccountsByStatus emptyDB "Ready" = (GoSlice.mk [], none) ∧
    (FindAccountsByStatus emptyDB "Ready").1.isNil = false ∧
    (FindAccountsByStatus emptyDB "Ready").1.isEmpty = true ∧
    FindLeasesByPrincipal emptyDB "u1" = (GoSlice.nil, none) ∧
    (FindLeasesByPrincipal emptyDB "u1").1.isEmpty = true :=
  claim9_find_empty_results emptyDB "Ready" "u1" (by decide) (by decide)

end Dce
